import Mathlib

/-!
Shallow embedding of `src/maps/QuakesMap.jsx`: an earthquake-map view that
fetches a GeoJSON feed on filter change, sizes circle markers by magnitude,
and binds an informational popup per feature.  JavaScript numbers are
idealised as real numbers where arithmetic is performed, and as their
rendered decimal strings where they are interpolated into markup.
-/

namespace QuakesMap

/-- `BASE_URL` from QuakesMap.jsx line 24 (note the trailing slash). -/
def BASE_URL : String := "https://earthquake.usgs.gov/earthquakes/feed/v1.0/summary/"

/-- `getMarkerRadius` from QuakesMap.jsx lines 27-32:
`area = baseArea * 10 ** ((magnitude - 1) / scaleFactor)` with
`baseArea = 10`, `scaleFactor = 2.5`, and the returned radius is
`sqrt(area / Math.PI)`. -/
noncomputable def getMarkerRadius (magnitude : ℝ) : ℝ :=
  let baseArea : ℝ := 10
  let scaleFactor : ℝ := 2.5
  let area : ℝ := baseArea * (10 : ℝ) ^ ((magnitude - 1) / scaleFactor)
  Real.sqrt (area / Real.pi)

/-- The magnitude filter options rendered as buttons (QuakesMap.jsx line 118). -/
def MAGNITUDE_OPTIONS : List String := ["all", "1.0", "2.5", "4.5", "significant"]

/-- The time-window filter options rendered as buttons (QuakesMap.jsx line 142). -/
def TIMESPAN_OPTIONS : List String := ["hour", "day", "week", "month"]

/-- The `disabled` prop of a magnitude button (QuakesMap.jsx lines 123-126):
`timespan === "month" && (magnitude === "all" || magnitude === "1.0")`. -/
def magButtonDisabled (timespan magnitude : String) : Bool :=
  timespan == "month" && (magnitude == "all" || magnitude == "1.0")

/-- The time-window buttons (QuakesMap.jsx lines 142-157) carry no `disabled`
prop, so they are always enabled. -/
def timespanButtonDisabled (_timespan _intervall : String) : Bool :=
  false

/-- The two pieces of filter state: `minMag` and `timespan`
(QuakesMap.jsx lines 81-82). -/
structure UIState where
  minMag : String
  timespan : String
  deriving DecidableEq

/-- The `useState` defaults: `minMag = "2.5"`, `timespan = "week"`. -/
def initialState : UIState := ⟨"2.5", "week"⟩

/-- A user click on one of the filter buttons.  Only the rendered options
have buttons, and a disabled button fires no `onClick`. -/
inductive UIAction where
  | setMinMag (magnitude : String)
  | setTimespan (intervall : String)
  deriving DecidableEq

/-- Effect of a button click on the filter state.  A magnitude button exists
for each member of `MAGNITUDE_OPTIONS` and fires `setMinMag` unless its
`disabled` prop holds; a time-window button exists for each member of
`TIMESPAN_OPTIONS` and always fires `setTimespan` (it has no `disabled`
prop). -/
def step (s : UIState) (a : UIAction) : UIState :=
  match a with
  | .setMinMag m =>
      if m ∈ MAGNITUDE_OPTIONS ∧ magButtonDisabled s.timespan m = false then
        ⟨m, s.timespan⟩
      else s
  | .setTimespan t =>
      if t ∈ TIMESPAN_OPTIONS ∧ timespanButtonDisabled s.timespan t = false then
        ⟨s.minMag, t⟩
      else s

/-- The state reached from the mount defaults by a sequence of clicks. -/
def run (acts : List UIAction) : UIState :=
  acts.foldl step initialState

/-- The request URL built in the effect (QuakesMap.jsx line 100):
the template `BASE_URL + "/" + minMag + "_" + timespan + ".geojson"`. -/
def feedUrl (minMag timespan : String) : String :=
  BASE_URL ++ "/" ++ minMag ++ "_" ++ timespan ++ ".geojson"

/-- The fetches issued by the `useEffect` at QuakesMap.jsx lines 99-102 after
a render that changed the state from `prev` to `cur`: its dependency array is
exactly `[minMag, timespan]`, so the effect re-runs (issuing one fetch of
`feedUrl`) precisely when one of the two values changed. -/
def effectFetches (prev cur : UIState) : List String :=
  if cur = prev then [] else [feedUrl cur.minMag cur.timespan]

/-- A JSON value as produced by `resp.json()`.  Numbers are idealised by
their decimal source text; `JSON.parse` never yields `undefined`, and
objects parse to association lists on their keys. -/
inductive Json where
  | jnull
  | jbool (b : Bool)
  | jnum (text : String)
  | jstr (s : String)
  | jarr (elems : List Json)
  | jobj (fields : List (String × Json))

/-- Result of the JavaScript property access `data.features`: a `TypeError`
when `data` is `null`, `undefined` when the key is absent or `data` is not
an object, otherwise the field value. -/
inductive FieldResult where
  | threw
  | undefined
  | val (j : Json)

/-- JavaScript semantics of `data.features` on a parsed JSON value. -/
def jsGetField (data : Json) (key : String) : FieldResult :=
  match data with
  | .jnull => .threw
  | .jobj fields =>
      match fields.lookup key with
      | some v => .val v
      | none => .undefined
  | _ => .undefined

/-- The value stored in the `quakesJson` state.  `setQuakesJson(data.features)`
stores `undefined` when the parsed body has no `features` field. -/
inductive JsVal where
  | undefined
  | json (j : Json)

/-- A fetch `Response`: its `ok` status flag and the result of
`await resp.json()` (`Except.error` = the body is not syntactically valid
JSON, so `json()` rejects with that message). -/
structure Response where
  ok : Bool
  body : Except String Json

/-- `fetchQuakeData` (QuakesMap.jsx lines 85-96).  The input
`Except.error e` models `await fetch(url)` itself rejecting (transport
failure).  Inside the `try` block: a non-ok status throws
`Error fetching data from {url}`, a body that is not valid JSON makes
`resp.json()` reject, and `data.features` throws a `TypeError` when `data`
is `null`.  Every throw is caught and passed to `console.log`; otherwise
`setQuakesJson(data.features)` stores the field value (or `undefined`).
Returns the new `quakesJson` value and the list of logged messages; the
function is total, which is exactly the catch-all `try/catch`: no exception
escapes the fetch boundary. -/
def fetchQuakeData (prev : JsVal) (url : String)
    (resp : Except String Response) : JsVal × List String :=
  match resp with
  | .error e => (prev, [e])
  | .ok r =>
      if !r.ok then
        (prev, ["Error fetching data from " ++ url])
      else
        match r.body with
        | .error e => (prev, [e])
        | .ok data =>
            match jsGetField data "features" with
            | .threw =>
                (prev, ["TypeError: Cannot read properties of null (reading features)"])
            | .undefined => (.undefined, [])
            | .val j => (.json j, [])

/-- A GeoJSON feature's `properties`.  The type parameter is the type at
which JavaScript numbers are viewed: `ℝ` where arithmetic is performed,
`String` (the rendered decimal text) where they are interpolated into
markup.  `place` is optional; the feed may omit it. -/
structure Properties (α : Type) where
  mag : α
  place : Option String
  type : String
  url : String
  deriving DecidableEq

/-- A GeoJSON feature's `geometry`: `coordinates = [lon, lat, depth]`. -/
structure Geometry (α : Type) where
  coordinates : α × α × α
  deriving DecidableEq

/-- A GeoJSON feature; `properties` and `geometry` may each be absent. -/
structure Feature (α : Type) where
  properties : Option (Properties α)
  geometry : Option (Geometry α)
  deriving DecidableEq

/-- JavaScript truthiness of `properties.place`: absent (`undefined` or
`null`) and the empty string are falsy; any other string is truthy. -/
def jsTruthyPlace : Option String → Bool
  | none => false
  | some s => !s.isEmpty

/-- A Leaflet circle marker as configured by `pointToLayer`. -/
structure CircleMarker where
  center : ℝ × ℝ
  radius : ℝ
  color : String

/-- `pointToLayer` (QuakesMap.jsx lines 35-38): reads `properties.mag`
(throwing, i.e. `none`, when `properties` is absent) and returns a red
circle marker of radius `getMarkerRadius(mag)` at the given position. -/
noncomputable def pointToLayer (feature : Feature ℝ) (latlng : ℝ × ℝ) :
    Option CircleMarker :=
  match feature.properties with
  | none => none
  | some p => some ⟨latlng, getMarkerRadius p.mag, "red"⟩

/-- The text content of a rendered popup: title, body text, and the
`More info` hyperlink's target URL, browsing-context target and label. -/
structure PopupContent where
  title : String
  body : String
  linkHref : String
  linkTarget : String
  linkText : String
  deriving DecidableEq

/-- Text content of the `<p>` body of the `Popup` component
(QuakesMap.jsx lines 57-66), markup elided, with a line break for each
`<br/>` element. -/
def popupBody (mag typ lon lat depth : String) : String :=
  "MAGNITUDE: " ++ mag ++ "\n" ++ "DEPTH: " ++ depth ++ " km" ++ "\n"
    ++ "TYPE: " ++ typ ++ "\n" ++ "Lon/Lat: " ++ lon ++ ", " ++ lat

/-- The `Popup` component (QuakesMap.jsx lines 50-75).  It first
destructures `geometry.coordinates`, which throws (`none`) when `geometry`
is absent, then reads the properties (throwing when absent) and renders the
place as title, the body lines, and a link with `target="_blank"` labelled
`More info`.  React renders an absent `place` as empty text. -/
def Popup (feature : Feature String) : Option PopupContent :=
  match feature.geometry with
  | none => none
  | some g =>
      match feature.properties with
      | none => none
      | some p =>
          some ⟨p.place.getD "",
                popupBody p.mag p.type g.coordinates.1 g.coordinates.2.1
                  g.coordinates.2.2,
                p.url, "_blank", "More info"⟩

/-- `onEachFeature` (QuakesMap.jsx lines 41-47): binds a rendered popup only
when `feature.properties && feature.properties.place` is truthy;
`Except.error` models an exception escaping from
`renderToString(<Popup {...feature} />)`. -/
def onEachFeature (feature : Feature String) : Except Unit (Option PopupContent) :=
  match feature.properties with
  | none => .ok none
  | some p =>
      if jsTruthyPlace p.place then
        match Popup feature with
        | none => .error ()
        | some c => .ok (some c)
      else .ok none

/-- Whether `onEachFeature` bound a popup to the feature's layer. -/
def popupBound (feature : Feature String) : Bool :=
  match onEachFeature feature with
  | .ok (some _) => true
  | _ => false

/-- The example feature from the spec: `mag 4.2`,
`place "10km N of Testville"`, `type "earthquake"`, `url "http://x"`,
`coordinates [-120.1, 35.2, 8.3]`, numbers viewed as their rendered text. -/
def testFeature : Feature String :=
  ⟨some ⟨"4.2", some "10km N of Testville", "earthquake", "http://x"⟩,
   some ⟨("-120.1", "35.2", "8.3")⟩⟩

end QuakesMap

namespace QuakesMap

/-- Claim C1: for every magnitude `m` the marker radius is exactly
`sqrt((10 * 10^((m-1)/2.5)) / pi)`; in particular the radius at magnitude 1
is `sqrt(10/pi)`; and no clamping occurs for zero or negative magnitudes:
the radius is the same formula there and is strictly positive. -/
theorem marker_radius_formula :
    (∀ m : ℝ, getMarkerRadius m = Real.sqrt (10 * (10 : ℝ) ^ ((m - 1) / 2.5) / Real.pi))
      ∧ getMarkerRadius 1 = Real.sqrt (10 / Real.pi)
      ∧ (∀ m : ℝ, 0 < getMarkerRadius m) := by
  refine ⟨fun m => rfl, ?_, fun m => ?_⟩
  · show Real.sqrt (10 * (10 : ℝ) ^ (((1 : ℝ) - 1) / 2.5) / Real.pi) = _
    norm_num [Real.rpow_zero]
  · show 0 < Real.sqrt (10 * (10 : ℝ) ^ ((m - 1) / 2.5) / Real.pi)
    have hpi := Real.pi_pos
    have hpow : (0 : ℝ) < (10 : ℝ) ^ ((m - 1) / 2.5) :=
      Real.rpow_pos_of_pos (by norm_num) _
    exact Real.sqrt_pos.mpr (by positivity)

/-- Claim C5: the marker radius is strictly increasing in magnitude. -/
theorem marker_radius_strictMono (m1 m2 : ℝ) (h : m1 < m2) :
    getMarkerRadius m1 < getMarkerRadius m2 := by
  show Real.sqrt (10 * (10 : ℝ) ^ ((m1 - 1) / 2.5) / Real.pi)
      < Real.sqrt (10 * (10 : ℝ) ^ ((m2 - 1) / 2.5) / Real.pi)
  have hpi := Real.pi_pos
  have hexp : (m1 - 1) / 2.5 < (m2 - 1) / 2.5 :=
    (div_lt_div_iff_of_pos_right (by norm_num)).mpr (by linarith)
  have hpow : (10 : ℝ) ^ ((m1 - 1) / 2.5) < (10 : ℝ) ^ ((m2 - 1) / 2.5) :=
    Real.rpow_lt_rpow_left_iff (by norm_num) |>.mpr hexp
  have h1 : (0 : ℝ) < (10 : ℝ) ^ ((m1 - 1) / 2.5) :=
    Real.rpow_pos_of_pos (by norm_num) _
  apply Real.sqrt_lt_sqrt
  · positivity
  · gcongr

/-- Witness for C5 at the concrete pair (1, 2). -/
theorem marker_radius_strictMono_witness :
    getMarkerRadius 1 < getMarkerRadius 2 :=
  marker_radius_strictMono 1 2 (by norm_num)

/-- Claim C9: a magnitude button is disabled exactly when the current window
is "month" and the option is "all" or "1.0"; the time-window buttons are
never disabled. -/
theorem button_disabled_iff :
    (∀ w m : String,
        magButtonDisabled w m = true ↔ w = "month" ∧ (m = "all" ∨ m = "1.0"))
      ∧ ∀ w t : String, timespanButtonDisabled w t = false := by
  refine ⟨fun w m => ?_, fun w t => rfl⟩
  simp [magButtonDisabled]

/-- Counterexample to claim C3: from the default state, clicking magnitude
"all" (enabled, since the window is "week") and then window "month" (always
enabled) reaches the state (minMag = "all", timespan = "month"). -/
theorem month_invariant_cex :
    (run [UIAction.setMinMag "all", UIAction.setTimespan "month"]).timespan = "month"
      ∧ (run [UIAction.setMinMag "all", UIAction.setTimespan "month"]).minMag = "all" := by
  constructor <;> rfl

/-- Claim C3 as amended: while the window is "month", the disabled buttons
make any attempt to select magnitude "all" or "1.0" a no-op, but the
combination is still reachable by selecting the magnitude first and then the
"month" window. -/
theorem month_blocks_low_magnitudes (s : UIState) (m : String)
    (hm : m = "all" ∨ m = "1.0") (ht : s.timespan = "month") :
    step s (UIAction.setMinMag m) = s := by
  rcases hm with rfl | rfl <;> simp [step, magButtonDisabled, ht]

/-- Witness for the amended C3 at a concrete state and option. -/
theorem month_blocks_low_magnitudes_witness :
    step ⟨"2.5", "month"⟩ (UIAction.setMinMag "all") = ⟨"2.5", "month"⟩ :=
  month_blocks_low_magnitudes ⟨"2.5", "month"⟩ "all" (Or.inl rfl) rfl

/-- Claim C2: whenever a click changes `minMag` or `timespan`, the effect
issues exactly one fetch, whose URL is the template
`{BASE_URL}/{minMag}_{timespan}.geojson` at the new values. -/
theorem fetch_on_change (s : UIState) (a : UIAction) (h : step s a ≠ s) :
    effectFetches s (step s a)
      = [BASE_URL ++ "/" ++ (step s a).minMag ++ "_" ++ (step s a).timespan
          ++ ".geojson"] := by
  simp [effectFetches, h, feedUrl]

/-- Witness for C2: selecting magnitude "4.5" from the default state issues
one fetch of the interpolated URL. -/
theorem fetch_on_change_witness :
    effectFetches initialState ⟨"4.5", "week"⟩
      = [BASE_URL ++ "/" ++ "4.5" ++ "_" ++ "week" ++ ".geojson"] := by
  have hs : step initialState (UIAction.setMinMag "4.5") = ⟨"4.5", "week"⟩ := by
    rfl
  have h : step initialState (UIAction.setMinMag "4.5") ≠ initialState := by
    rw [hs]
    decide
  have h2 := fetch_on_change initialState (UIAction.setMinMag "4.5") h
  rw [hs] at h2
  exact h2

/-- Counterexample to claim C4: a successful response (ok status, parseable
body) whose JSON body is an object with no `features` array is malformed
with respect to the feed schema, yet nothing is caught or logged and the
collection does not keep its previous value: it becomes `undefined`. -/
theorem fetch_malformed_body_cex :
    fetchQuakeData (.json (.jarr [.jobj []])) "u" (.ok ⟨true, .ok (.jobj [])⟩)
        = (.undefined, [])
      ∧ JsVal.undefined ≠ JsVal.json (.jarr [.jobj []]) :=
  ⟨rfl, fun h => JsVal.noConfusion h⟩

/-- Claim C4 as amended: transport failures, non-success statuses, bodies
that fail JSON parsing, and a JSON `null` body (whose `features` access
throws a `TypeError`) are all caught and logged, leaving the collection at
its previous value; `fetchQuakeData` is total, so no exception escapes the
fetch boundary.  However, a parseable JSON body lacking a `features` field
silently replaces the collection with `undefined`. -/
theorem fetch_error_handling (prev : JsVal) (u : String) :
    (∀ e, fetchQuakeData prev u (.error e) = (prev, [e]))
      ∧ (∀ body, fetchQuakeData prev u (.ok ⟨false, body⟩)
          = (prev, ["Error fetching data from " ++ u]))
      ∧ (∀ e, fetchQuakeData prev u (.ok ⟨true, .error e⟩) = (prev, [e]))
      ∧ fetchQuakeData prev u (.ok ⟨true, .ok .jnull⟩)
          = (prev, ["TypeError: Cannot read properties of null (reading features)"])
      ∧ ∀ fields, fields.lookup "features" = none →
          fetchQuakeData prev u (.ok ⟨true, .ok (.jobj fields)⟩) = (.undefined, []) := by
  refine ⟨fun e => rfl, fun body => rfl, fun e => rfl, rfl, fun fields h => ?_⟩
  simp [fetchQuakeData, jsGetField, h]

/-- Witness for the amended C4: the empty-object body stores `undefined`. -/
theorem fetch_error_handling_witness :
    fetchQuakeData (JsVal.json (Json.jarr [])) "u" (.ok ⟨true, .ok (.jobj [])⟩)
      = (JsVal.undefined, []) :=
  (fetch_error_handling (JsVal.json (Json.jarr [])) "u").2.2.2.2 [] rfl

/-- Claim C8: a successful fetch whose parsed body has a `features` field
replaces the collection wholesale with that value, independently of the
previous collection; in particular `features = []` empties it. -/
theorem fetch_success_replaces (prev : JsVal) (u : String) (data : Json)
    (fs : List Json) (h : jsGetField data "features" = .val (.jarr fs)) :
    fetchQuakeData prev u (.ok ⟨true, .ok data⟩) = (.json (.jarr fs), []) := by
  simp [fetchQuakeData, h]

/-- Witness for C8: a body whose `features` is the empty array empties the
previously non-empty collection. -/
theorem fetch_success_replaces_witness :
    fetchQuakeData (JsVal.json (Json.jarr [Json.jnull])) "u"
        (.ok ⟨true, .ok (.jobj [("features", Json.jarr [])])⟩)
      = (JsVal.json (Json.jarr []), []) :=
  fetch_success_replaces _ "u" _ [] rfl

/-- Counterexample to claim C6: a feature whose `place` field is present but
equal to the empty string (falsy in JavaScript) receives no popup binding,
so "popup bound iff place present" fails. -/
theorem popup_place_cex :
    ((⟨some ⟨"1.0", some "", "earthquake", "u"⟩, some ⟨("0", "0", "0")⟩⟩ :
          Feature String).properties.bind Properties.place).isSome = true
      ∧ popupBound
          ⟨some ⟨"1.0", some "", "earthquake", "u"⟩, some ⟨("0", "0", "0")⟩⟩
          = false :=
  ⟨rfl, rfl⟩

/-- Claim C6 as amended: a popup is bound exactly when the feature has
properties with a truthy (present and non-empty) `place` and a geometry;
and marker rendering does not depend on `place` at all, so a feature
lacking `place` still gets its marker. -/
theorem popup_bound_iff :
    (∀ f : Feature String,
        popupBound f
          = ((f.properties.map fun p => jsTruthyPlace p.place).getD false
              && f.geometry.isSome))
      ∧ ∀ (mag : ℝ) (pl1 pl2 : Option String) (typ u : String)
          (g : Option (Geometry ℝ)) (l : ℝ × ℝ),
          pointToLayer ⟨some ⟨mag, pl1, typ, u⟩, g⟩ l
            = pointToLayer ⟨some ⟨mag, pl2, typ, u⟩, g⟩ l := by
  constructor
  · rintro ⟨props, geom⟩
    cases props with
    | none => rfl
    | some p =>
        cases hpl : jsTruthyPlace p.place <;> cases geom <;>
          simp [popupBound, onEachFeature, Popup, hpl]
  · intro mag pl1 pl2 typ u g l
    rfl

/-- Claim C7: for any feature with properties and geometry present, the
popup's title is the place name, its body contains the magnitude, the depth
followed by " km", the type, and the longitude/latitude pair, and its link
points at `properties.url` and opens in a new browsing context
(`target="_blank"`); instantiated at the spec's example feature, the popup
contains "Testville", "4.2", "8.3 km", "earthquake" and links to
"http://x". -/
theorem popup_content :
    (∀ (p : Properties String) (g : Geometry String),
        ∃ c, Popup ⟨some p, some g⟩ = some c
          ∧ c.title = p.place.getD ""
          ∧ (∃ s1 s2, c.body = s1 ++ p.mag ++ s2)
          ∧ (∃ s1 s2, c.body = s1 ++ (g.coordinates.2.2 ++ " km") ++ s2)
          ∧ (∃ s1 s2, c.body = s1 ++ p.type ++ s2)
          ∧ (∃ s1 s2,
              c.body = s1 ++ (g.coordinates.1 ++ ", " ++ g.coordinates.2.1) ++ s2)
          ∧ c.linkHref = p.url ∧ c.linkTarget = "_blank")
      ∧ ∃ c, Popup testFeature = some c
          ∧ (∃ s1 s2, c.title = s1 ++ "Testville" ++ s2)
          ∧ (∃ s1 s2, c.body = s1 ++ "4.2" ++ s2)
          ∧ (∃ s1 s2, c.body = s1 ++ "8.3 km" ++ s2)
          ∧ (∃ s1 s2, c.body = s1 ++ "earthquake" ++ s2)
          ∧ c.linkHref = "http://x" ∧ c.linkTarget = "_blank" := by
  constructor
  · intro p g
    refine ⟨_, rfl, rfl, ?_, ?_, ?_, ?_, rfl, rfl⟩
    · exact ⟨"MAGNITUDE: ",
        "\n" ++ "DEPTH: " ++ g.coordinates.2.2 ++ " km" ++ "\n" ++ "TYPE: "
          ++ p.type ++ "\n" ++ "Lon/Lat: " ++ g.coordinates.1 ++ ", "
          ++ g.coordinates.2.1,
        by simp only [popupBody, String.append_assoc]⟩
    · exact ⟨"MAGNITUDE: " ++ p.mag ++ "\n" ++ "DEPTH: ",
        "\n" ++ "TYPE: " ++ p.type ++ "\n" ++ "Lon/Lat: " ++ g.coordinates.1
          ++ ", " ++ g.coordinates.2.1,
        by simp only [popupBody, String.append_assoc]⟩
    · exact ⟨"MAGNITUDE: " ++ p.mag ++ "\n" ++ "DEPTH: " ++ g.coordinates.2.2
          ++ " km" ++ "\n" ++ "TYPE: ",
        "\n" ++ "Lon/Lat: " ++ g.coordinates.1 ++ ", " ++ g.coordinates.2.1,
        by simp only [popupBody, String.append_assoc]⟩
    · exact ⟨"MAGNITUDE: " ++ p.mag ++ "\n" ++ "DEPTH: " ++ g.coordinates.2.2
          ++ " km" ++ "\n" ++ "TYPE: " ++ p.type ++ "\n" ++ "Lon/Lat: ",
        "",
        by simp only [popupBody, String.append_assoc, String.append_empty]⟩
  · refine ⟨_, rfl, ⟨"10km N of ", "", by decide⟩, ?_, ?_, ?_, rfl, rfl⟩
    · exact ⟨"MAGNITUDE: ",
        "\nDEPTH: 8.3 km\nTYPE: earthquake\nLon/Lat: -120.1, 35.2", by decide⟩
    · exact ⟨"MAGNITUDE: 4.2\nDEPTH: ",
        "\nTYPE: earthquake\nLon/Lat: -120.1, 35.2", by decide⟩
    · exact ⟨"MAGNITUDE: 4.2\nDEPTH: 8.3 km\nTYPE: ",
        "\nLon/Lat: -120.1, 35.2", by decide⟩

/-- Claim C10: popup binding checks only `properties.place` before
rendering; on a feature with a truthy `place` but no `geometry`,
destructuring `geometry.coordinates` inside `Popup` throws, so the
popup-binding step is not total over feed features. -/
theorem popup_throws_without_geometry :
    onEachFeature
        ⟨some ⟨"4.2", some "somewhere", "earthquake", "http://x"⟩, none⟩
      = .error () :=
  rfl

end QuakesMap
